import Mathlib

/-!
Verification of the frame-synchronization core of the rotating-cube renderer
(`src/main.rs`). The program is a single straight-line render loop; we embed
its static geometry data, its per-iteration state updates, and the sequence of
GPU-facing operations it performs each iteration, and prove the specified
synchronization, error-handling and data-validity properties about them.
-/

namespace CubeRenderer

/-- Embedding of the Rust `Vertex` record (`src/main.rs` lines 27-30).
The source fields are `[f32; 3]` arrays whose literals here are all exactly
representable integers (`-1.`, `0.`, `1.`), so we embed them as `Int` triples. -/
structure Vertex where
  pos : Int × Int × Int
  color : Int × Int × Int
deriving DecidableEq

/-- `CUBE_VERTS` (`src/main.rs` lines 45-80): the 8 cube vertices. -/
def CUBE_VERTS : List Vertex :=
  [ ⟨(-1, -1, 1), (0, 1, 0)⟩,
    ⟨(1, -1, 1), (0, 1, 0)⟩,
    ⟨(1, 1, 1), (0, 1, 0)⟩,
    ⟨(-1, 1, 1), (0, 1, 0)⟩,
    ⟨(-1, -1, -1), (0, 0, 1)⟩,
    ⟨(1, -1, -1), (0, 0, 1)⟩,
    ⟨(1, 1, -1), (0, 0, 1)⟩,
    ⟨(-1, 1, -1), (0, 0, 1)⟩ ]

/-- `CUBE_INDICES` (`src/main.rs` lines 82-95): six faces of six `u16` indices
each; the values are small so they are embedded as `Nat`. -/
def CUBE_INDICES : List (List Nat) :=
  [ [0, 1, 2, 2, 3, 0],
    [4, 5, 6, 6, 7, 4],
    [0, 1, 4, 4, 5, 1],
    [1, 2, 5, 5, 6, 2],
    [2, 3, 6, 6, 7, 3],
    [3, 0, 7, 7, 4, 0] ]

/-- Embedding of `let flat_indices: [u16; 6 * 6] = unsafe { std::mem::transmute(CUBE_INDICES) };`
(`src/main.rs` line 224). Rust lays out `[[u16; 6]; 6]` as 36 contiguous `u16`
in row-major order, so the reinterpreted flat array's element `i` is element
`i % 6` of row `i / 6` of the two-dimensional array. -/
def flat_indices : List Nat :=
  (List.range 36).map (fun i => (CUBE_INDICES.getD (i / 6) []).getD (i % 6) 0)

/-- Modelled from the spec's words for the refinement comparison of the
transmute: "an explicit, bounds-checked flattening" of the faces in order,
i.e. the concatenation of the six rows. -/
def flattenRowMajor (faces : List (List Nat)) : List Nat :=
  faces.flatten

/-- C9: every one of the 6 cube faces has 6 indices referencing exactly 4
distinct vertices of the 8-vertex cube, and all 36 indices lie in `[0, 8)`. -/
theorem cube_indices_valid :
    CUBE_VERTS.length = 8 ∧
    CUBE_INDICES.length = 6 ∧
    (CUBE_INDICES.all fun face =>
      face.length = 6 && face.dedup.length = 4 && face.all (· < 8)) = true ∧
    CUBE_INDICES.flatten.length = 36 ∧
    (CUBE_INDICES.flatten.all (· < 8)) = true := by
  decide

/-- C10: the layout-based reinterpretation of the 2D index array as a flat
array of 36 elements coincides with the explicit row-major flattening: it has
exactly 36 elements (matching the 6 × 6 source element count) and equals the
concatenation of the six faces of `CUBE_INDICES` in order. -/
theorem flat_indices_eq_flatten :
    flat_indices.length = 36 ∧
    (CUBE_INDICES.map List.length).sum = 36 ∧
    flat_indices = flattenRowMajor CUBE_INDICES := by
  decide

/-! ## The frame loop

`main` (`src/main.rs` lines 132-299) is a single `while running` loop. We
embed it as (a) a state-transition function on the mutable loop state and
(b) a trace of the GPU-facing operations each iteration performs, both driven
by an environment input per iteration (the window events polled, the frame
index returned by `acquire_frame`, and the outcomes of `present` and
`wait_for_fences`, which the GPU decides).

The floating-point `angle` variable feeds only `mk_transform` and no claim
concerns its value, so it is not part of the embedded state; the dimensions
that `mk_transform` is called with are tracked exactly (`transformDim`). -/

/-- The two semaphores created at `src/main.rs` lines 228-229:
`frame_semaphore` ("image available") and `draw_semaphore` ("render done"). -/
inductive Semaphore where
  | frameSemaphore
  | drawSemaphore
deriving DecidableEq

/-- The single fence created at `src/main.rs` line 230 (`create_fence(false)`,
i.e. created unsignaled). -/
inductive Fence where
  | frameFence
deriving DecidableEq

/-- Outcome of `swap_chain.present` (`src/main.rs` line 294). The surface may
be fine or lost/out of date; the source discards the call's result either way. -/
inductive PresentResult where
  | ok
  | outOfDate
deriving DecidableEq

/-- Outcome of `device.wait_for_fences` (`src/main.rs` line 295): the fence
fired within the timeout, or the wait timed out. The source discards the
call's result either way. -/
inductive WaitResult where
  | success
  | timeout
deriving DecidableEq

/-- One window event as matched by the `poll_events` closure
(`src/main.rs` lines 245-261). -/
inductive Event where
  | closed
  | keyEscape
  | resized (w h : Nat)
  | other
deriving DecidableEq

/-- The GPU-facing operations the loop body performs, in source order.
`resetFence` and `recreateSwapchain` are operations the surrounding API
offers that the spec's protocol mentions; the loop body never performs
either (there is no fence reset and no swapchain rebuild in the source). -/
inductive Op where
  | pollEvents
  | updateTransform
  | acquireFrame (id : Nat)
  | setOutColor (id : Nat)
  | updateConstantBuffer
  | clearColor
  | clearDepth
  | draw
  | syncedFlush (wait : List Semaphore) (signal : List Semaphore) (fence : Option Fence)
  | present (wait : List Semaphore)
  | waitForFences (fences : List Fence) (timeoutNs : Nat)
  | resetFence (f : Fence)
  | recreateSwapchain
  | cleanup
  | poolReset
deriving DecidableEq

/-- The mutable state of the loop. `viewsDim` records the dimensions at which
the swapchain backbuffer views (`src/main.rs` lines 177-208) were created:
the `views` list is built once, before the loop, and never rebuilt, so the
render targets used by the clears and draw always have these dimensions.
`outColorIdx`/`outDepthIdx` are the indices into `views` of the currently
bound `data.out_color`/`data.out_depth`. `transformDim` is the dimension pair
last passed to `mk_transform`. -/
structure LoopState where
  running : Bool
  dim : Nat × Nat
  viewsDim : Nat × Nat
  transformDim : Nat × Nat
  outColorIdx : Nat
  outDepthIdx : Nat
deriving DecidableEq

/-- The state before the first iteration (`src/main.rs` lines 151-242), as a
function of the window dimensions `d0` reported at startup: `running = true`,
the backbuffer views are created at `d0`, the initial transform uses `d0`,
and both render-target bindings point at `views[0]` (lines 237-238). -/
def initState (d0 : Nat × Nat) : LoopState :=
  { running := true
    dim := d0
    viewsDim := d0
    transformDim := d0
    outColorIdx := 0
    outDepthIdx := 0 }

/-- The `poll_events` closure (`src/main.rs` lines 245-262) applied to one
event. `Closed` clears `running`; `Resized` stores the new dimensions.
The `Escape` arm is `=> return`, and inside a closure `return` only returns
from the closure itself — it does not exit `main` or stop the loop — so its
effect on the loop state is the same as an unmatched event: none. -/
def processEvent (s : LoopState) (e : Event) : LoopState :=
  match e with
  | .closed => { s with running := false }
  | .keyEscape => s
  | .resized w h => { s with dim := (w, h) }
  | .other => s

/-- The environment input consumed by one loop iteration: the events delivered
by `poll_events`, the frame index returned by `acquire_frame`, and the
outcomes of `present` and `wait_for_fences`. -/
structure IterInput where
  events : List Event
  frameId : Nat
  presentResult : PresentResult
  waitResult : WaitResult
deriving DecidableEq

/-- State update of one loop body run (`src/main.rs` lines 243-298): poll all
pending events, recompute the transform from the (possibly resized) current
dimensions (line 266), and rebind `data.out_color` to the view of the acquired
frame index (line 270). Nothing else in the body writes the loop state: in
particular `data.out_depth` and the `views` list are untouched, and the
results of `present` and `wait_for_fences` are discarded, so the next state
cannot depend on them. -/
def iterState (s : LoopState) (evs : List Event) (fid : Nat) : LoopState :=
  let s1 := evs.foldl processEvent s
  { s1 with transformDim := s1.dim, outColorIdx := fid }

/-- Operations performed from `swap_chain.present` onward as a function of the
present outcome (`src/main.rs` lines 294-297): the result of `present` is
discarded, so the same wait is issued regardless. -/
def opsAfterPresent (r : PresentResult) : List Op :=
  match r with
  | _ => [.waitForFences [.frameFence] 1000000]

/-- Operations performed after `device.wait_for_fences` returns as a function
of the wait outcome (`src/main.rs` lines 296-297): the wait's return value is
not bound to anything, so the same cleanup and pool reset follow regardless. -/
def opsAfterWait (r : WaitResult) : List Op :=
  match r with
  | _ => [.cleanup, .poolReset]

/-- The GPU-facing operation trace of one loop body run, in source order
(`src/main.rs` lines 243-298): poll events; recompute the transform; acquire
a frame (signalling `frame_semaphore`); rebind the color target; record
uniform update, clears and draw; `synced_flush` waiting on `frame_semaphore`,
signalling `draw_semaphore` and `frame_fence` (lines 284-291); present
waiting on `draw_semaphore` (line 294); wait on `frame_fence` with the fixed
1_000_000 timeout (line 295); queue cleanup and pool reset. -/
def iterOps (i : IterInput) : List Op :=
  [ .pollEvents,
    .updateTransform,
    .acquireFrame i.frameId,
    .setOutColor i.frameId,
    .updateConstantBuffer,
    .clearColor,
    .clearDepth,
    .draw,
    .syncedFlush [.frameSemaphore] [.drawSemaphore] (some .frameFence),
    .present [.drawSemaphore] ]
  ++ opsAfterPresent i.presentResult
  ++ opsAfterWait i.waitResult

/-- The `while running` loop, state part: run the body while `running` holds,
consuming one environment input per iteration. A `Closed` event only clears
`running`; the iteration that observes it still completes, and the loop stops
at the next top-of-loop test, exactly as in the source. -/
def runLoop (s : LoopState) : List IterInput → LoopState
  | [] => s
  | i :: rest =>
    if s.running then runLoop (iterState s i.events i.frameId) rest else s

/-- The `while running` loop, trace part: concatenation of the op traces of
the iterations actually executed. -/
def loopTrace (s : LoopState) : List IterInput → List Op
  | [] => []
  | i :: rest =>
    if s.running then iterOps i ++ loopTrace (iterState s i.events i.frameId) rest
    else []

/-! ## Trace checkers

Decidable scanners over op traces, used to state the synchronization
properties. Each carries a boolean scan state explained at its definition. -/

/-- Scans a trace with `b` = "a submission that used the uniform buffer and
command memory is in flight and its fence has not been waited on yet".
Fails if the CPU writes the uniform buffer (`updateConstantBuffer`) or resets
the command pool (`poolReset`) while such a submission is pending. -/
def noPrematureReuse (b : Bool) : List Op → Bool
  | [] => true
  | op :: rest =>
    let okHere :=
      match op with
      | .updateConstantBuffer => !b
      | .poolReset => !b
      | _ => true
    let b' :=
      match op with
      | .syncedFlush _ _ _ => true
      | .waitForFences _ _ => false
      | _ => b
    okHere && noPrematureReuse b' rest

/-- Scans a trace with `b` = "the fence has been waited on (is signaled) and
has not been reset since". Fails if a submission is given the fence to signal
while `b` holds, i.e. if the fence reaches a new submission without an
intervening `resetFence`. This is claim C2's property. -/
def resetBeforeReuse (b : Bool) : List Op → Bool
  | [] => true
  | op :: rest =>
    match op with
    | .waitForFences _ _ => resetBeforeReuse true rest
    | .resetFence _ => resetBeforeReuse false rest
    | .syncedFlush _ _ (some _) => !b && resetBeforeReuse b rest
    | _ => resetBeforeReuse b rest

/-- Scans a trace with `b` = "a submission carrying the fence is in flight and
not yet waited on". Fails if a second submission is given the fence while the
first is still pending: the fence is handed to a new submission only after a
wait on it has completed. -/
def waitBeforeReuse (b : Bool) : List Op → Bool
  | [] => true
  | op :: rest =>
    match op with
    | .waitForFences _ _ => waitBeforeReuse false rest
    | .syncedFlush _ _ (some _) => !b && waitBeforeReuse true rest
    | _ => waitBeforeReuse b rest

/-- True of ops that are a fence reset. -/
def isResetFence (op : Op) : Bool :=
  match op with
  | .resetFence _ => true
  | _ => false

/-- Every submission in the trace waits on `frame_semaphore` and signals
`draw_semaphore` and `frame_fence`, and every present waits on
`draw_semaphore` — the configuration claim C3 states. -/
def submissionsOk (l : List Op) : Bool :=
  l.all fun op =>
    match op with
    | .syncedFlush w sg f =>
      w == [Semaphore.frameSemaphore] && sg == [Semaphore.drawSemaphore]
        && f == some Fence.frameFence
    | .present w => w == [Semaphore.drawSemaphore]
    | _ => true

/-! ## Helper lemmas about one iteration -/

theorem noPrematureReuse_iterOps (i : IterInput) (rest : List Op) :
    noPrematureReuse false (iterOps i ++ rest) = noPrematureReuse false rest := by
  simp [iterOps, opsAfterPresent, opsAfterWait, noPrematureReuse]

theorem submissionsOk_iterOps (i : IterInput) (rest : List Op) :
    submissionsOk (iterOps i ++ rest) = submissionsOk rest := by
  simp [iterOps, opsAfterPresent, opsAfterWait, submissionsOk, beq_self_eq_true]

theorem waitBeforeReuse_iterOps (i : IterInput) (rest : List Op) :
    waitBeforeReuse false (iterOps i ++ rest) = waitBeforeReuse false rest := by
  simp [iterOps, opsAfterPresent, opsAfterWait, waitBeforeReuse]

theorem no_resetFence_iterOps (i : IterInput) :
    iterOps i |>.all (fun op => !isResetFence op) := by
  simp [iterOps, opsAfterPresent, opsAfterWait, isResetFence]

theorem recreateSwapchain_not_mem_iterOps (i : IterInput) :
    Op.recreateSwapchain ∉ iterOps i := by
  simp [iterOps, opsAfterPresent, opsAfterWait]

theorem processEvent_outDepthIdx (s : LoopState) (e : Event) :
    (processEvent s e).outDepthIdx = s.outDepthIdx := by
  cases e <;> rfl

theorem foldl_processEvent_outDepthIdx (evs : List Event) (s : LoopState) :
    (evs.foldl processEvent s).outDepthIdx = s.outDepthIdx := by
  induction evs generalizing s with
  | nil => rfl
  | cons e rest ih => rw [List.foldl_cons, ih, processEvent_outDepthIdx]

theorem iterState_outDepthIdx (s : LoopState) (evs : List Event) (fid : Nat) :
    (iterState s evs fid).outDepthIdx = s.outDepthIdx := by
  simp [iterState, foldl_processEvent_outDepthIdx]

/-! ## Claim theorems C1-C3 -/

/-- C1: in every run of the loop, the CPU never rewrites the uniform buffer
and never resets the command pool while a submission that used them is in
flight un-waited: the `wait_for_fences` at the end of each iteration completes
before the next iteration's `update_constant_buffer` and before the
`graphics_pool.reset` of its own iteration. -/
theorem uniform_and_pool_reused_only_after_wait
    (d0 : Nat × Nat) (inputs : List IterInput) :
    noPrematureReuse false (loopTrace (initState d0) inputs) = true := by
  suffices h : ∀ (s : LoopState) (l : List IterInput),
      noPrematureReuse false (loopTrace s l) = true from h _ inputs
  intro s l
  induction l generalizing s with
  | nil => rfl
  | cons i rest ih =>
    by_cases hr : s.running
    · simp [loopTrace, hr, noPrematureReuse_iterOps, ih]
    · simp [loopTrace, hr, noPrematureReuse]

/-- C3: in every run of the loop, every queue submission waits on the
image-available semaphore (`frame_semaphore`) and signals both the
render-done semaphore (`draw_semaphore`) and the completion fence
(`frame_fence`), and every present waits on the render-done semaphore. -/
theorem submission_and_present_config
    (d0 : Nat × Nat) (inputs : List IterInput) :
    submissionsOk (loopTrace (initState d0) inputs) = true := by
  suffices h : ∀ (s : LoopState) (l : List IterInput),
      submissionsOk (loopTrace s l) = true from h _ inputs
  intro s l
  induction l generalizing s with
  | nil => rfl
  | cons i rest ih =>
    by_cases hr : s.running
    · simp [loopTrace, hr, submissionsOk_iterOps, ih]
    · simp [loopTrace, hr, submissionsOk]

/-- C1 witness: the theorem instantiated at a concrete two-iteration run. -/
theorem uniform_and_pool_reused_only_after_wait_witness :
    noPrematureReuse false
      (loopTrace (initState (1024, 768))
        [⟨[], 0, .ok, .success⟩, ⟨[], 1, .ok, .success⟩]) = true :=
  uniform_and_pool_reused_only_after_wait (1024, 768)
    [⟨[], 0, .ok, .success⟩, ⟨[], 1, .ok, .success⟩]

/-- C3 witness: the theorem instantiated at a concrete two-iteration run. -/
theorem submission_and_present_config_witness :
    submissionsOk
      (loopTrace (initState (1024, 768))
        [⟨[], 0, .ok, .success⟩, ⟨[], 1, .ok, .success⟩]) = true :=
  submission_and_present_config (1024, 768)
    [⟨[], 0, .ok, .success⟩, ⟨[], 1, .ok, .success⟩]

/-! ## Claim C2: fence reset -/

/-- C2 counterexample: in a concrete two-iteration run, the fence is waited
on at the end of the first iteration and handed to the second iteration's
submission with no `resetFence` in between — the loop never resets the fence,
so the claimed reset-before-reuse discipline fails. -/
theorem fence_not_reset_before_reuse_cex :
    resetBeforeReuse false
      (loopTrace (initState (1024, 768))
        [⟨[], 0, .ok, .success⟩, ⟨[], 0, .ok, .success⟩]) = false := by
  decide

/-- C2 amended: the loop never resets the fence at all; the fence is handed
to the next frame's submission without an intervening reset, and the only
discipline actually enforced is that a wait on the fence completes before it
is handed to a new submission. -/
theorem fence_reused_without_reset (d0 : Nat × Nat) (inputs : List IterInput) :
    ((loopTrace (initState d0) inputs).all fun op => !isResetFence op) = true ∧
    waitBeforeReuse false (loopTrace (initState d0) inputs) = true := by
  constructor
  · suffices h : ∀ (s : LoopState) (l : List IterInput),
        ((loopTrace s l).all fun op => !isResetFence op) = true from h _ _
    intro s l
    induction l generalizing s with
    | nil => rfl
    | cons i rest ih =>
      by_cases hr : s.running
      · simp only [loopTrace, hr, if_true, List.all_append]
        rw [ih]
        simp [no_resetFence_iterOps i]
      · simp [loopTrace, hr]
  · suffices h : ∀ (s : LoopState) (l : List IterInput),
        waitBeforeReuse false (loopTrace s l) = true from h _ _
    intro s l
    induction l generalizing s with
    | nil => rfl
    | cons i rest ih =>
      by_cases hr : s.running
      · simp [loopTrace, hr, waitBeforeReuse_iterOps, ih]
      · simp [loopTrace, hr, waitBeforeReuse]

/-- C2 witness: the amended theorem instantiated at a concrete run. -/
theorem fence_reused_without_reset_witness :
    ((loopTrace (initState (1024, 768)) [⟨[], 0, .ok, .success⟩]).all
      fun op => !isResetFence op) = true ∧
    waitBeforeReuse false
      (loopTrace (initState (1024, 768)) [⟨[], 0, .ok, .success⟩]) = true :=
  fence_reused_without_reset (1024, 768) [⟨[], 0, .ok, .success⟩]

/-! ## Claim C4: the fence-wait result -/

/-- C4 counterexample: the loop behaves identically whether the fence wait
succeeded or timed out — the return value of `wait_for_fences` is discarded,
so a timeout is not reported and triggers neither a retry nor a device-lost
error. -/
theorem wait_result_discarded_cex :
    opsAfterWait WaitResult.timeout = opsAfterWait WaitResult.success ∧
    loopTrace (initState (1024, 768)) [⟨[], 0, .ok, .timeout⟩]
      = loopTrace (initState (1024, 768)) [⟨[], 0, .ok, .success⟩] ∧
    runLoop (initState (1024, 768)) [⟨[], 0, .ok, .timeout⟩]
      = runLoop (initState (1024, 768)) [⟨[], 0, .ok, .success⟩] := by
  decide

/-- C4 amended: the result of the fence wait is silently discarded — the
operations performed after the wait, and the whole iteration's op trace, are
the same function of the remaining inputs whether the wait succeeded or timed
out, so a timeout is silently ignored rather than reported. -/
theorem wait_result_ignored :
    (∀ r r' : WaitResult, opsAfterWait r = opsAfterWait r') ∧
    (∀ (evs : List Event) (fid : Nat) (pr : PresentResult) (r r' : WaitResult),
      iterOps ⟨evs, fid, pr, r⟩ = iterOps ⟨evs, fid, pr, r'⟩) := by
  constructor
  · intro r r'
    cases r <;> cases r' <;> rfl
  · intro evs fid pr r r'
    cases r <;> cases r' <;> rfl

/-! ## Claim C5: surface lost / out of date -/

/-- C5 counterexample: in a concrete run whose first present reports the
surface out of date, no swapchain recreation occurs anywhere in the trace —
the outcome is not surfaced as a distinct error and triggers no recovery. -/
theorem out_of_date_unhandled_cex :
    (IterInput.mk [] 0 .outOfDate .success).presentResult
      = PresentResult.outOfDate ∧
    Op.recreateSwapchain ∉
      loopTrace (initState (1024, 768))
        [⟨[], 0, .outOfDate, .success⟩, ⟨[], 0, .ok, .success⟩] := by
  decide

/-- C5 amended: an out-of-date or lost surface is never surfaced at all: the
result of `present` is discarded (the iteration's op trace is the same
whatever the present outcome), no swapchain recreation ever occurs in any
run, and the loop simply continues — the condition is neither recovered from
nor treated as fatal. -/
theorem out_of_date_not_surfaced :
    (∀ (evs : List Event) (fid : Nat) (pr pr' : PresentResult) (r : WaitResult),
      iterOps ⟨evs, fid, pr, r⟩ = iterOps ⟨evs, fid, pr', r⟩) ∧
    (∀ (s : LoopState) (inputs : List IterInput),
      Op.recreateSwapchain ∉ loopTrace s inputs) := by
  constructor
  · intro evs fid pr pr' r
    cases pr <;> cases pr' <;> rfl
  · intro s inputs
    induction inputs generalizing s with
    | nil => simp [loopTrace]
    | cons i rest ih =>
      by_cases hr : s.running
      · simp only [loopTrace, hr, if_true, List.mem_append]
        rintro (h | h)
        · exact recreateSwapchain_not_mem_iterOps i h
        · exact ih _ h
      · simp [loopTrace, hr]

/-! ## Claim C6: render-target binding per acquired frame -/

/-- C6 counterexample: in a concrete iteration whose acquire returns index 1,
the color target is rebound to index 1 but the depth target is not the depth
view of the acquired index — it is still the view of index 0 bound at
startup. -/
theorem depth_view_not_rebound_cex :
    (iterState (initState (1024, 768)) [] 1).outColorIdx = 1 ∧
    ¬ (iterState (initState (1024, 768)) [] 1).outDepthIdx = 1 := by
  decide

/-- C6 amended: each iteration binds the color view of the acquired frame
index as the color target, but never rebinds the depth target: the depth view
bound is unchanged by every iteration and in any run from startup it remains
the view of index 0. -/
theorem color_rebound_depth_never_rebound :
    (∀ (s : LoopState) (evs : List Event) (fid : Nat),
      (iterState s evs fid).outColorIdx = fid ∧
      (iterState s evs fid).outDepthIdx = s.outDepthIdx) ∧
    (∀ (d0 : Nat × Nat) (inputs : List IterInput),
      (runLoop (initState d0) inputs).outDepthIdx = 0) := by
  constructor
  · intro s evs fid
    exact ⟨rfl, iterState_outDepthIdx s evs fid⟩
  · intro d0 inputs
    have h : ∀ (s : LoopState) (l : List IterInput),
        (runLoop s l).outDepthIdx = s.outDepthIdx := by
      intro s l
      induction l generalizing s with
      | nil => rfl
      | cons i rest ih =>
        by_cases hr : s.running
        · simp [runLoop, hr, ih, iterState_outDepthIdx]
        · simp [runLoop, hr]
    exact h _ inputs

/-! ## Claim C7: resize leaves the render-target views stale -/

/-- C7: evaluating the loop at the failing input — start at 1024 × 768,
receive a resize to 800 × 600 — shows the divergence: the next cycle's
transform uses the new dimensions, but the render-target views used by the
clears and draw are still the ones created at 1024 × 768; the `views` list is
never rebuilt on resize. -/
theorem stale_views_after_resize :
    runLoop (initState (1024, 768)) [⟨[Event.resized 800 600], 0, .ok, .success⟩]
      = { running := true
          dim := (800, 600)
          viewsDim := (1024, 768)
          transformDim := (800, 600)
          outColorIdx := 0
          outDepthIdx := 0 } := by
  decide

/-! ## Claim C8: loop exit -/

/-- C8: evaluating the loop at the failing input — an Escape key event — shows
the divergence: because the Escape arm of the `poll_events` closure is
`=> return`, which returns from the closure only, the loop is still running
afterwards and executes further full iterations; by contrast a `Closed` event
does exit the loop, after the iteration observing it has fully drained (its
trace still contains the present and the fence wait). -/
theorem escape_does_not_exit :
    (runLoop (initState (1024, 768))
        [⟨[Event.keyEscape], 0, .ok, .success⟩, ⟨[], 0, .ok, .success⟩]).running
      = true ∧
    (loopTrace (initState (1024, 768))
        [⟨[Event.keyEscape], 0, .ok, .success⟩, ⟨[], 0, .ok, .success⟩]).length
      = 26 ∧
    (runLoop (initState (1024, 768))
        [⟨[Event.closed], 0, .ok, .success⟩, ⟨[], 0, .ok, .success⟩]).running
      = false ∧
    loopTrace (initState (1024, 768))
        [⟨[Event.closed], 0, .ok, .success⟩, ⟨[], 0, .ok, .success⟩]
      = iterOps ⟨[Event.closed], 0, .ok, .success⟩ ∧
    Op.present [Semaphore.drawSemaphore] ∈
      loopTrace (initState (1024, 768))
        [⟨[Event.closed], 0, .ok, .success⟩, ⟨[], 0, .ok, .success⟩] ∧
    Op.waitForFences [Fence.frameFence] 1000000 ∈
      loopTrace (initState (1024, 768))
        [⟨[Event.closed], 0, .ok, .success⟩, ⟨[], 0, .ok, .success⟩] := by
  decide

end CubeRenderer
